import Mathlib

/-!
# Verification of baselayer's authenticated request plane

A shallow embedding, in Lean 4, of the parts of `baselayer` relevant to the
claims under study:

* the row-level access-control algebra of `app/models/access.py`
  (`Public`, `Restricted`, `AccessibleIfUserMatches`,
  `AccessibleIfRelatedRowsAreAccessible`, `ComposedAccessControl`) and the
  point query `is_accessible_by` of `app/models/base.py`;
* the verified transactional session of `app/models.py`
  (`_VerifiedSession.commit`, `bulk_verify`, `handle_inaccessible`);
* the websocket server of `services/websocket_server/websocket_server.py`
  (connection state machine, per-user socket sets, broadcast);
* the socket-auth token handler of `app/handlers/socket_auth.py`;
* the error converter `BaseHandler.write_error` of `app/handlers/base.py`
  together with `AccessError` of `app/custom_exceptions.py`;
* the migration-gate polling loop of `services/app/app.py`.

Queries over the relational store are embedded by their set semantics: a
compiled policy query is modelled as the list of row ids it returns, JOINs
become existential conditions over explicit relationship functions, and the
database content is a `Registry` of per-entity row lists and relationship
maps.  Machine integers do not overflow in any of the modelled code paths,
so `Nat` is used throughout.

The file is organised as definitions first (all components), then lemmas and
the claim theorems.
-/

namespace Baselayer

/-! ## Access-control algebra (`app/models/access.py`) -/

/-- The requesting principal.  `is_admin` is `"System admin" in permissions`
(`app/models.py`); `user_id` is the effective user id produced by
`UserAccessControl.user_id_from_user_or_token`: the user's own id for a
`User`, the creator's id (`created_by_id`) for a `Token`. -/
structure Principal where
  is_admin : Bool
  user_id : Nat
deriving Repr, DecidableEq

/-- The non-`Custom` access-control policy variants of `app/models/access.py`.
`userMatches` carries the relationship chain already split on `"."`;
`relatedRows` carries the `properties_and_modes` items as
(relationship name, access mode) pairs in iteration order; `composedAcc`
carries the sub-policies and the logic flag (`true` for `"and"`, `false` for
`"or"`).  `CustomUserAccessControl` is outside the claims and is not
modelled. -/
inductive AccessPolicy where
  | publicAcc : AccessPolicy
  | restrictedAcc : AccessPolicy
  | userMatches : List String → AccessPolicy
  | relatedRows : List (String × String) → AccessPolicy
  | composedAcc : List AccessPolicy → Bool → AccessPolicy
deriving Repr

/-- `isinstance(logic, Public)` / `isinstance(access_control, Public)`:
exactly the `Public` variant. -/
def isPublicPol : AccessPolicy → Bool
  | AccessPolicy.publicAcc => true
  | _ => false

/-- The entity metadata and table contents that SQLAlchemy supplies at query
build time: for each entity name the ids of its rows, and for each named
relationship the related row ids of each row together with the target entity
(`relationship.entity.class_`).  `modePolicy e m` is `getattr(cls, mode)`:
the policy the application attached to entity `e` for access mode `m`. -/
structure Registry where
  rows : String → List Nat
  relatedIds : String → String → Nat → List Nat
  relTarget : String → String → String
  modePolicy : String → String → AccessPolicy

/-- Terminal row ids reached from row `r` of entity `ent` by the sequential
INNER JOINs of `AccessibleIfUserMatches.query_accessible_rows` along the
relationship chain. -/
def chainTerminalIds (reg : Registry) : String → List String → Nat → List Nat
  | _, [], r => [r]
  | ent, name :: rest, r =>
      (reg.relatedIds ent name r).flatMap
        (fun x => chainTerminalIds reg (reg.relTarget ent name) rest x)

/-- Set semantics of `query_accessible_rows` for each policy variant
(`app/models/access.py`): the ids of the rows of `ent` the compiled query
returns for principal `u`.  The `fuel` argument bounds the recursion through
the registry (`relatedRows` compiles the related entity's own policy, and
`composedAcc` compiles its sub-policies over an alias of the same table);
every recursive call runs at `fuel - 1`, and at fuel `0` the result is empty.

* `publicAcc`: `SELECT ... FROM cls` — every row.
* `restrictedAcc`: admins get the public query, everyone else
  `.filter(sa.literal(False))`.
* `userMatches chain`: admins get the public query; otherwise sequential
  JOINs along the chain and `.filter(cls.id == user_id)` — the rows from
  which some chain path reaches the principal's effective user id.
* `relatedRows clauses`: for each (prop, mode) clause whose related policy is
  not `Public`, the row must have a related row through `prop` that the
  related entity's `mode` policy makes accessible (`.join(relationship)`
  then `.join(accessible_related_rows_subquery)`).  `Public` clauses are
  skipped (`continue`).  There is no admin check in this variant.
* `composedAcc subs lg`: `Public` sub-policies are skipped; each remaining
  sub-policy contributes its accessible-id subquery; `"and"` INNER-joins all
  of them (the row must be in every subquery), `"or"` OUTER-joins them and
  keeps rows where at least one subquery id is non-NULL
  (`sa.or_` of the emptied column list is false). -/
def query_accessible_rows (reg : Registry) (u : Principal) :
    Nat → AccessPolicy → String → List Nat
  | 0, _, _ => []
  | fuel + 1, pol, ent =>
    match pol with
    | AccessPolicy.publicAcc => reg.rows ent
    | AccessPolicy.restrictedAcc =>
        if u.is_admin then reg.rows ent else []
    | AccessPolicy.userMatches chain =>
        if u.is_admin then reg.rows ent
        else (reg.rows ent).filter
          (fun r => (chainTerminalIds reg ent chain r).any (fun t => t == u.user_id))
    | AccessPolicy.relatedRows clauses =>
        (reg.rows ent).filter (fun r =>
          clauses.all (fun pm =>
            let tgt := reg.relTarget ent pm.fst
            let pol' := reg.modePolicy tgt pm.snd
            if isPublicPol pol' then true
            else (reg.relatedIds ent pm.fst r).any
              (fun x => (query_accessible_rows reg u fuel pol' tgt).contains x)))
    | AccessPolicy.composedAcc subs lg =>
        let subsets := (subs.filter (fun s => !(isPublicPol s))).map
          (fun s => query_accessible_rows reg u fuel s ent)
        if lg then (reg.rows ent).filter (fun r => subsets.all (fun l => l.contains r))
        else (reg.rows ent).filter (fun r => subsets.any (fun l => l.contains r))

/-- `_BaseMixin.is_accessible_by` (`app/models/base.py`): compile the mode's
policy for the row's class, narrow to `cls.id == self.id`, and test whether
any row matches. -/
def is_accessible_by (reg : Registry) (u : Principal) (fuel : Nat)
    (ent : String) (rid : Nat) (mode : String) : Bool :=
  (query_accessible_rows reg u fuel (reg.modePolicy ent mode) ent).contains rid

/-! ## Policy construction (`AccessibleIfUserMatches.relationship_chain`) -/

/-- Python's `value.split(".")` — split on an explicit single-character
separator — over the string's character list.  It always returns at least
one piece; in particular `"".split(".") == [""]`. -/
def pySplitDot : List Char → List (List Char)
  | [] => [[]]
  | c :: rest =>
      if c = '.' then [] :: pySplitDot rest
      else
        match pySplitDot rest with
        | [] => [[c]]
        | piece :: pieces => (c :: piece) :: pieces

/-- The `relationship_chain` property setter of `AccessibleIfUserMatches`
(`app/models/access.py`): split the chain string on `"."` and raise
`ValueError("Need at least 1 relationship to join on.")` when fewer than one
relationship name results.  (The string type check above it is not modelled:
the input here is already a string.) -/
def relationship_chain_setter (value : List Char) :
    Except String (List (List Char)) :=
  let relationship_names := pySplitDot value
  if relationship_names.length < 1 then
    Except.error "Need at least 1 relationship to join on."
  else Except.ok relationship_names

/-! ## Verified transactional session (`app/models.py`) -/

/-- A tracked ORM row: its mapped class name and primary key. -/
structure TrackedRow where
  cls : String
  rid : Nat
deriving Repr, DecidableEq

/-- The `security` configuration section read at module load:
`security.strict` and `security.slack.enabled` (the webhook toggle). -/
structure SecurityCfg where
  strict : Bool
  use_webhook : Bool
deriving Repr, DecidableEq

/-- Observable side effects of `handle_inaccessible`. -/
inductive LeakEffect where
  | warning : LeakEffect
  | webhookPost : LeakEffect
deriving Repr, DecidableEq

/-- `handle_inaccessible` (`app/models.py`): post the error (with traceback)
to the webhook when `security.slack.enabled` is set, otherwise emit one
warning; then raise `AccessError` iff `security.strict`.  Returns the
emitted effect and whether the call raises. -/
def handle_inaccessible (c : SecurityCfg) : LeakEffect × Bool :=
  ((if c.use_webhook then LeakEffect.webhookPost else LeakEffect.warning), c.strict)

/-- The distinct mapped classes of a collection, as produced by grouping the
rows with `defaultdict(list)` keyed on `type(row)` in `bulk_verify`. -/
def classKeys : List TrackedRow → List String
  | [] => []
  | row :: rest =>
      let ks := classKeys rest
      if ks.contains row.cls then ks else row.cls :: ks

/-- The per-class loop of `bulk_verify`: a group whose rows are not all
accessible calls `handle_inaccessible`, and in strict mode the raised
`AccessError` aborts the remaining groups.  `acc mode row` abstracts
membership of the row's id in the compiled accessible-row query of the
row's class (`query_records_accessible_by`); the outer-join IS-NULL test of
the source marks exactly the rows for which this is false.  Returns the
effects emitted in order and whether an `AccessError` was raised. -/
def verifyClasses (c : SecurityCfg) (acc : String → TrackedRow → Bool)
    (mode : String) (collection : List TrackedRow) :
    List String → List LeakEffect × Bool
  | [] => ([], false)
  | k :: rest =>
      let inacc := collection.filter (fun row => row.cls == k && !(acc mode row))
      if inacc.isEmpty then verifyClasses c acc mode collection rest
      else
        let h := handle_inaccessible c
        if h.2 then ([h.1], true)
        else
          let t := verifyClasses c acc mode collection rest
          (h.1 :: t.1, t.2)

/-- `bulk_verify(mode, collection, accessor)` (`app/models.py`). -/
def bulk_verify (c : SecurityCfg) (acc : String → TrackedRow → Bool)
    (mode : String) (collection : List TrackedRow) : List LeakEffect × Bool :=
  verifyClasses c acc mode collection (classKeys collection)

/-- The four buckets `_VerifiedSession.verify` derives from the session:
`self.new`, the modified rows of `self.dirty`, `self.deleted`, and the
remaining identity-map rows (read). -/
structure SessionBuckets where
  new_rows : List TrackedRow
  updated_rows : List TrackedRow
  deleted_rows : List TrackedRow
  read_rows : List TrackedRow
deriving Repr, DecidableEq

/-- The externally visible steps of `_VerifiedSession.commit`. -/
inductive SessionEvent where
  | bulkVerifyEv : String → SessionEvent
  | flushEv : SessionEvent
  | commitTxEv : SessionEvent
deriving Repr, DecidableEq

/-- Result of `_VerifiedSession.commit`: the steps performed in order, the
leak effects emitted, and whether an `AccessError` was raised (in which case
the underlying `Session.commit()` is never reached and the open transaction
is left to roll back). -/
structure CommitOutcome where
  events : List SessionEvent
  effects : List LeakEffect
  raised : Bool
deriving Repr, DecidableEq

/-- `_VerifiedSession.commit` = `self.verify()` then `super().commit()`
(`app/models.py`): bulk-verify the `read`, `update` and `delete` buckets (in
that order), flush, bulk-verify `create`, and only then commit the
transaction; a raise at any step aborts the remaining steps. -/
def verified_commit (c : SecurityCfg) (acc : String → TrackedRow → Bool)
    (s : SessionBuckets) : CommitOutcome :=
  let r1 := bulk_verify c acc "read" s.read_rows
  if r1.2 then
    { events := [SessionEvent.bulkVerifyEv "read"], effects := r1.1, raised := true }
  else
    let r2 := bulk_verify c acc "update" s.updated_rows
    if r2.2 then
      { events := [SessionEvent.bulkVerifyEv "read", SessionEvent.bulkVerifyEv "update"],
        effects := r1.1 ++ r2.1, raised := true }
    else
      let r3 := bulk_verify c acc "delete" s.deleted_rows
      if r3.2 then
        { events := [SessionEvent.bulkVerifyEv "read", SessionEvent.bulkVerifyEv "update",
            SessionEvent.bulkVerifyEv "delete"],
          effects := r1.1 ++ r2.1 ++ r3.1, raised := true }
      else
        let r4 := bulk_verify c acc "create" s.new_rows
        if r4.2 then
          { events := [SessionEvent.bulkVerifyEv "read", SessionEvent.bulkVerifyEv "update",
              SessionEvent.bulkVerifyEv "delete", SessionEvent.flushEv,
              SessionEvent.bulkVerifyEv "create"],
            effects := r1.1 ++ r2.1 ++ r3.1 ++ r4.1, raised := true }
        else
          { events := [SessionEvent.bulkVerifyEv "read", SessionEvent.bulkVerifyEv "update",
              SessionEvent.bulkVerifyEv "delete", SessionEvent.flushEv,
              SessionEvent.bulkVerifyEv "create", SessionEvent.commitTxEv],
            effects := r1.1 ++ r2.1 ++ r3.1 ++ r4.1, raised := false }

/-- Number of (mode, class) groups of one bucket with at least one
inaccessible row — the groups for which `handle_inaccessible` fires. -/
def leakGroups (acc : String → TrackedRow → Bool) (mode : String)
    (collection : List TrackedRow) : Nat :=
  ((classKeys collection).filter
    (fun k => collection.any (fun row => row.cls == k && !(acc mode row)))).length

/-- Total number of leaking groups over the four buckets of a session, in
the order the buckets are verified. -/
def leakGroupCount (acc : String → TrackedRow → Bool) (s : SessionBuckets) : Nat :=
  leakGroups acc "read" s.read_rows + leakGroups acc "update" s.updated_rows +
    leakGroups acc "delete" s.deleted_rows + leakGroups acc "create" s.new_rows

/-- An accessibility oracle denying every row. -/
def denyAll : String → TrackedRow → Bool := fun _ _ => false

/-- A session holding exactly one read row (of class `widgets`, id `5`). -/
def leakSession : SessionBuckets :=
  { new_rows := [], updated_rows := [], deleted_rows := [],
    read_rows := [{ cls := "widgets", rid := 5 }] }

/-! ## Migration gate (`services/app/app.py`) -/

/-- The backoff update after each failed poll:
`timeout = max(timeout * 2, 30)` (`services/app/app.py`). -/
def next_timeout (t : Nat) : Nat := max (t * 2) 30

/-- The polling loop run before the port is bound:
`while not migrated_db(port): sleep(timeout); timeout = max(timeout*2, 30)`,
starting from `timeout = 1`.  The input lists the truthiness of each
successive `migrated_db` result (`false` also covers the `None` returned on
a connection error).  Returns `none` when the responses run out with the
process still parked, or `some sleeps` — the sleep durations in order —
once the loop exits and the process proceeds to bind its port. -/
def migration_sleeps : List Bool → Nat → Option (List Nat)
  | [], _ => none
  | resp :: rest, t =>
      if resp then some []
      else
        match migration_sleeps rest (next_timeout t) with
        | none => none
        | some sleeps => some (t :: sleeps)

/-! ## Websocket auth token (`app/handlers/socket_auth.py` against
`services/websocket_server/websocket_server.py`) -/

/-- The JWT payload built by `SocketAuthTokenHandler.get`: an `exp` claim of
now plus 15 minutes, and the requesting user's id — stored under the claim
key `"username"` — signed and returned inside
`{"status": "success", "data": {"token": ...}}`.  Times are in seconds;
the result is the non-`exp` claims paired with the `exp` value. -/
def socket_auth_token_payload (user_id : Nat) (now : Nat) :
    List (String × String) × Nat :=
  ([("username", toString user_id)], now + 15 * 60)

/-- Python's `payload.get(key, None)` over the claim list. -/
def lookupClaim (k : String) : List (String × String) → Option String
  | [] => none
  | kv :: rest => if kv.fst == k then some kv.snd else lookupClaim k rest

/-- The acceptance logic of `WebSocket.authenticate`
(`services/websocket_server/websocket_server.py`) on a token whose
signature verifies: an `exp` at or before `now` raises
`ExpiredSignatureError`; otherwise `payload.get("user_id", None)` is read
and a falsy value (absent or empty) raises `DecodeError`.  Both errors lead
to `AUTH FAILED`; the result is the authenticated user id, or `none` when
the token is rejected. -/
def ws_authenticate_user_id (claims : List (String × String))
    (expiry now : Nat) : Option String :=
  if expiry ≤ now then none
  else
    match lookupClaim "user_id" claims with
    | none => none
    | some v => if v == "" then none else some v

/-! ## Error conversion (`app/handlers/base.py`, `app/custom_exceptions.py`) -/

/-- A Python value as seen by `isinstance`: a class object or an instance
of a named class.  The classes appearing here are plain exception classes —
no metaclass tricks — so a class object is an instance of `type` only,
never of an exception class. -/
inductive PyVal where
  | classObj : String → PyVal
  | instObj : String → PyVal
deriving Repr, DecidableEq

/-- `isinstance(v, C)` for an exception class `C`: true exactly for
instance objects of that class (`AccessError` has no subclasses in the
repository, so subclassing is irrelevant). -/
def py_isinstance : PyVal → String → Bool
  | PyVal.instObj c, target => c == target
  | PyVal.classObj _, _ => false

/-- `AccessError.__init__(self, reason, status_code=400)`
(`app/custom_exceptions.py`): the `status_code` parameter is ignored and
the underlying `tornado.web.HTTPError` always receives status 400.
Returns (reason, status_code) of the constructed error. -/
def access_error_init (reason : String) (status_code : Nat) : String × Nat :=
  (reason, 400)

/-- `BaseHandler.write_error(status_code, exc_info)`
(`app/handlers/base.py`): when exception info is present, it unpacks
`err_cls, err, traceback = exc_info` and tests
`isinstance(err_cls, AccessError)` — on the exception *class*, not the
instance — rewriting the status to 401 on success; the JSON error envelope
is then sent with the resulting status, which this function returns. -/
def write_error (status_code : Nat) (exc_info : Option (PyVal × PyVal)) : Nat :=
  match exc_info with
  | some (err_cls, _) =>
      if py_isinstance err_cls "AccessError" then 401 else status_code
  | none => status_code

/-- The propagation path of an uncaught `AccessError`: tornado calls
`send_error(e.status_code)`, which invokes
`write_error(e.status_code, exc_info=(type(e), e, tb))`; the result is the
HTTP status of the response the client receives. -/
def response_status_for_access_error (reason : String)
    (requested_status : Nat) : Nat :=
  let e := access_error_init reason requested_status
  write_error e.2 (some (PyVal.classObj "AccessError", PyVal.instObj "AccessError"))

/-! ## Websocket server (`services/websocket_server/websocket_server.py`) -/

/-- `self.max_auth_fails` as set in `WebSocket.__init__`. -/
def maxAuthFails : Nat := 3

/-- Per-connection state set in `WebSocket.__init__`: `authenticated`,
`auth_failures`, `user_id`. -/
structure WSConn where
  authenticated : Bool
  auth_failures : Nat
  user_id : Option String
deriving Repr, DecidableEq

/-- A fresh connection (`WebSocket.__init__`). -/
def initConn : WSConn :=
  { authenticated := false, auth_failures := 0, user_id := none }

/-- Messages and SUB-socket operations the server emits on behalf of one
connection, in order. -/
inductive WsOut where
  | authRequest : WsOut
  | authOk : WsOut
  | authFailed : WsOut
  | subscribeTopic : String → WsOut
  | unsubscribeTopic : String → WsOut
deriving Repr, DecidableEq

/-- The class-level `WebSocket.sockets` defaultdict(set) mapping user ids to
the sockets currently recorded for that user; sockets are identified by
numeric ids and sets carried as duplicate-free lists; a missing key reads
as the empty set. -/
abbrev SocketSets := List (String × List Nat)

/-- `WebSocket.sockets[k]` (read). -/
def getSet : SocketSets → String → List Nat
  | [], _ => []
  | e :: rest, k => if e.fst == k then e.snd else getSet rest k

/-- `WebSocket.sockets[k].add(sid)`. -/
def addSock : SocketSets → String → Nat → SocketSets
  | [], k, sid => [(k, [sid])]
  | e :: rest, k, sid =>
      if e.fst == k then
        (e.fst, if e.snd.contains sid then e.snd else sid :: e.snd) :: rest
      else e :: addSock rest k sid

/-- `WebSocket.sockets[k].remove(sid)` (with the `KeyError` of a missing
element swallowed, as in `on_close`). -/
def removeSock : SocketSets → String → Nat → SocketSets
  | [], _, _ => []
  | e :: rest, k, sid =>
      if e.fst == k then (e.fst, e.snd.filter (fun x => x ≠ sid)) :: rest
      else e :: removeSock rest k sid

/-- The server-side state observable for one connection: its per-connection
fields, the shared socket sets, and the outputs emitted so far. -/
structure WSState where
  conn : WSConn
  sockets : SocketSets
  out : List WsOut
deriving Repr, DecidableEq

/-- A decoded auth token: `valid uid` for a token whose signature verifies
and whose `exp` is in the future, carrying `payload.get("user_id")`;
`badTok` for one failing signature, decoding, or expiry. -/
inductive AuthTok where
  | valid : String → AuthTok
  | badTok : AuthTok
deriving Repr, DecidableEq

/-- `jwt.decode` combined with the `user_id` falsiness check of
`authenticate`: an absent or empty `user_id` raises `DecodeError`. -/
def decode_user_id : AuthTok → Option String
  | AuthTok.valid uid => if uid == "" then none else some uid
  | AuthTok.badTok => none

/-- `WebSocket.request_auth`: increment `auth_failures`, then send
`AUTH REQUEST`. -/
def request_auth (st : WSState) : WSState :=
  { st with
      conn := { st.conn with auth_failures := st.conn.auth_failures + 1 },
      out := st.out ++ [WsOut.authRequest] }

/-- `WebSocket.open`: immediately request authentication. -/
def ws_open (st : WSState) : WSState := request_auth st

/-- `WebSocket.authenticate(auth_token)` running for socket `sid`: on
success record the user id, mark the connection authenticated, zero the
failure counter, send `AUTH OK`, subscribe the user's topic when this is
the user's first socket on this server, and add the socket to the user's
set; on a decode or expiry error send `AUTH FAILED` and change nothing
else. -/
def authenticate (sid : Nat) (st : WSState) (tok : AuthTok) : WSState :=
  match decode_user_id tok with
  | some uid =>
      let subOps := if (getSet st.sockets uid).length = 0
        then [WsOut.subscribeTopic uid] else []
      { conn := { authenticated := true, auth_failures := 0, user_id := some uid },
        sockets := addSock st.sockets uid sid,
        out := st.out ++ [WsOut.authOk] ++ subOps }
  | none => { st with out := st.out ++ [WsOut.authFailed] }

/-- `WebSocket.on_message(auth_token)`: authenticate; when the connection is
still not authenticated, re-request authentication iff
`self.auth_failures <= self.max_auth_fails`, otherwise only log. -/
def on_message (sid : Nat) (st : WSState) (tok : AuthTok) : WSState :=
  let st1 := authenticate sid st tok
  if !st1.conn.authenticated then
    if st1.conn.auth_failures ≤ maxAuthFails then request_auth st1 else st1
  else st1

/-- `WebSocket.on_close`: when a user id is recorded, remove this socket
from that user's set — only that set — and unsubscribe the user's topic if
its set became empty. -/
def on_close (sid : Nat) (st : WSState) : WSState :=
  match st.conn.user_id with
  | none => st
  | some uid =>
      let m := removeSock st.sockets uid sid
      if (getSet m uid).length = 0 then
        { st with sockets := m, out := st.out ++ [WsOut.unsubscribeTopic uid] }
      else { st with sockets := m }

/-- `WebSocket.broadcast`: the sockets a bus message with the given routing
key is written to — every recorded socket for `"*"`, otherwise the sockets
of that key's set. -/
def broadcast_targets (m : SocketSets) (key : String) : List Nat :=
  if key == "*" then (m.map Prod.snd).flatten
  else getSet m key

/-! ## Concrete registries used as test inputs -/

/-- One entity `e` holding the single row `1`; every mode policy `Public`. -/
def regPair : Registry where
  rows := fun e => if e == "e" then [1] else []
  relatedIds := fun _ _ _ => []
  relTarget := fun _ _ => ""
  modePolicy := fun _ _ => AccessPolicy.publicAcc

/-- A join-table-like entity `assocs` whose row `1` has no related row
through its `owner` relationship; `assocs.read` is
`AccessibleIfRelatedRowsAreAccessible(owner="read")` and the related
entity's `read` policy is `Restricted` (hence not skipped as `Public`). -/
def regNoRelated : Registry where
  rows := fun e => if e == "assocs" then [1] else if e == "users" then [7] else []
  relatedIds := fun _ _ _ => []
  relTarget := fun e p => if e == "assocs" && p == "owner" then "users" else ""
  modePolicy := fun e m =>
    if e == "assocs" && m == "read" then AccessPolicy.relatedRows [("owner", "read")]
    else AccessPolicy.restrictedAcc

end Baselayer

namespace Baselayer

/-! ## Lemmas about the access algebra -/

/-- Every variant's compiled query only returns rows of the target table. -/
theorem mem_qar_mem_rows (reg : Registry) (u : Principal) :
    ∀ (fuel : Nat) (pol : AccessPolicy) (ent : String) (r : Nat),
      r ∈ query_accessible_rows reg u fuel pol ent → r ∈ reg.rows ent := by
  intro fuel pol ent r h
  cases fuel with
  | zero => simp [query_accessible_rows] at h
  | succ n =>
    cases pol with
    | publicAcc => simpa [query_accessible_rows] using h
    | restrictedAcc =>
      simp only [query_accessible_rows] at h
      split at h
      · exact h
      · simp at h
    | userMatches chain =>
      simp only [query_accessible_rows] at h
      split at h
      · exact h
      · exact (List.mem_filter.mp h).1
    | relatedRows clauses =>
      simp only [query_accessible_rows] at h
      exact (List.mem_filter.mp h).1
    | composedAcc subs lg =>
      simp only [query_accessible_rows] at h
      split at h
      · exact (List.mem_filter.mp h).1
      · exact (List.mem_filter.mp h).1

/-- `isPublicPol` detects exactly the `Public` variant. -/
theorem eq_publicAcc_of_isPublicPol {p : AccessPolicy}
    (h : isPublicPol p = true) : p = AccessPolicy.publicAcc := by
  cases p <;> simp [isPublicPol] at h ⊢

/-- Unfolding of the `Composed` arm of `query_accessible_rows`. -/
theorem qar_composed_def (reg : Registry) (u : Principal) (fuel : Nat)
    (subs : List AccessPolicy) (lg : Bool) (ent : String) :
    query_accessible_rows reg u (fuel + 1) (AccessPolicy.composedAcc subs lg) ent =
      (let subsets := (subs.filter (fun s => !(isPublicPol s))).map
        (fun s => query_accessible_rows reg u fuel s ent)
      if lg then (reg.rows ent).filter (fun r => subsets.all (fun l => l.contains r))
      else (reg.rows ent).filter (fun r => subsets.any (fun l => l.contains r))) := by
  rfl

/-- Membership in an AND-composed query: the row must be a table row that
every non-`Public` sub-policy's compiled query also returns. -/
theorem mem_qar_composed_and (reg : Registry) (u : Principal) (fuel : Nat)
    (subs : List AccessPolicy) (ent : String) (r : Nat) :
    r ∈ query_accessible_rows reg u (fuel + 1)
        (AccessPolicy.composedAcc subs true) ent ↔
      r ∈ reg.rows ent ∧ ∀ s ∈ subs, isPublicPol s = false →
        r ∈ query_accessible_rows reg u fuel s ent := by
  rw [qar_composed_def]
  simp only [List.mem_filter, List.all_eq_true, List.mem_map, List.elem_eq_mem,
    Bool.not_eq_true', decide_eq_true_eq, forall_exists_index, and_imp]
  simp [List.mem_filter, Bool.not_eq_true']
  intro _
  constructor
  · intro h s hs hp
    exact h _ s hs hp rfl
  · intro h x s hs hp hx
    exact hx ▸ h s hs hp

/-- Membership in an OR-composed query: the row must be a table row that at
least one non-`Public` sub-policy's compiled query returns (`Public`
sub-policies are skipped from the disjunction). -/
theorem mem_qar_composed_or (reg : Registry) (u : Principal) (fuel : Nat)
    (subs : List AccessPolicy) (ent : String) (r : Nat) :
    r ∈ query_accessible_rows reg u (fuel + 1)
        (AccessPolicy.composedAcc subs false) ent ↔
      r ∈ reg.rows ent ∧ ∃ s ∈ subs, isPublicPol s = false ∧
        r ∈ query_accessible_rows reg u fuel s ent := by
  rw [qar_composed_def]
  simp [List.mem_filter, List.any_eq_true, Bool.not_eq_true']
  intro _
  tauto

/-- `pySplitDot` never returns the empty list (Python `split` always yields
at least one piece). -/
theorem pySplitDot_ne_nil : ∀ value : List Char, pySplitDot value ≠ [] := by
  intro value
  cases value with
  | nil => simp [pySplitDot]
  | cons c rest =>
    simp only [pySplitDot]
    split
    · simp
    · split <;> simp

/-- Sanity: the policy defaults behave as expected on a tiny registry. -/
theorem qar_sanity :
    query_accessible_rows regPair ⟨false, 0⟩ 1 AccessPolicy.publicAcc "e" = [1] ∧
    query_accessible_rows regPair ⟨false, 0⟩ 1 AccessPolicy.restrictedAcc "e" = [] ∧
    query_accessible_rows regPair ⟨true, 0⟩ 1 AccessPolicy.restrictedAcc "e" = [1] := by
  decide

/-! ## Claim C2 — policy composition -/

/-- C2, counterexample.  For the non-admin principal, row `1` is in the
union of the accessible sets of `Public` and `Restricted` (it is in
`Public`'s set), yet the composed policy `Public | Restricted` — built by
`ComposedAccessControl(..., logic="or")` — yields no rows at all: the
`Public` operand is skipped from the disjunction, so `(Public | q)` does not
grant access to every row, and the OR-composition is not the union. -/
theorem claimC2_counterexample :
    1 ∈ query_accessible_rows regPair ⟨false, 0⟩ 1 AccessPolicy.publicAcc "e" ∧
    1 ∉ query_accessible_rows regPair ⟨false, 0⟩ 2
        (AccessPolicy.composedAcc
          [AccessPolicy.publicAcc, AccessPolicy.restrictedAcc] false) "e" := by
  decide

/-- C2, amended.  AND-composition is always the intersection of the two
accessible sets (so `Public` is an identity for AND), and OR-composition is
the union whenever neither operand is the `Public` policy; but a `Public`
operand of an OR is skipped from the disjunction, so `(Public | q)` compiles
to exactly `q`'s accessible rows — not to every row.  (The composed query is
evaluated with one more unit of fuel than its sub-queries, matching the
recursive compilation.) -/
theorem claimC2_amended (reg : Registry) (u : Principal) (fuel : Nat)
    (ent : String) (p q : AccessPolicy) (r : Nat) :
    (r ∈ query_accessible_rows reg u (fuel + 2)
        (AccessPolicy.composedAcc [p, q] true) ent ↔
      r ∈ query_accessible_rows reg u (fuel + 1) p ent ∧
      r ∈ query_accessible_rows reg u (fuel + 1) q ent) ∧
    (isPublicPol p = false → isPublicPol q = false →
      (r ∈ query_accessible_rows reg u (fuel + 2)
          (AccessPolicy.composedAcc [p, q] false) ent ↔
        r ∈ query_accessible_rows reg u (fuel + 1) p ent ∨
        r ∈ query_accessible_rows reg u (fuel + 1) q ent)) ∧
    (isPublicPol q = false →
      (r ∈ query_accessible_rows reg u (fuel + 2)
          (AccessPolicy.composedAcc [AccessPolicy.publicAcc, q] false) ent ↔
        r ∈ query_accessible_rows reg u (fuel + 1) q ent)) := by
  have hsub : ∀ pol, r ∈ query_accessible_rows reg u (fuel + 1) pol ent →
      r ∈ reg.rows ent := fun pol h => mem_qar_mem_rows reg u (fuel + 1) pol ent r h
  have hpubrows : query_accessible_rows reg u (fuel + 1) AccessPolicy.publicAcc ent
      = reg.rows ent := rfl
  refine ⟨?_, ?_, ?_⟩
  · -- AND is intersection
    rw [mem_qar_composed_and]
    constructor
    · intro h
      cases hp : isPublicPol p with
      | true =>
        cases hq : isPublicPol q with
        | true =>
          rw [eq_publicAcc_of_isPublicPol hp, eq_publicAcc_of_isPublicPol hq,
            hpubrows]
          exact ⟨h.1, h.1⟩
        | false =>
          rw [eq_publicAcc_of_isPublicPol hp, hpubrows]
          exact ⟨h.1, h.2 q (by simp) hq⟩
      | false =>
        cases hq : isPublicPol q with
        | true =>
          rw [eq_publicAcc_of_isPublicPol hq, hpubrows]
          exact ⟨h.2 p (by simp) hp, h.1⟩
        | false =>
          exact ⟨h.2 p (by simp) hp, h.2 q (by simp) hq⟩
    · intro h
      refine ⟨hsub p h.1, ?_⟩
      intro s hs hnp
      rcases List.mem_pair.mp hs with rfl | rfl
      · exact h.1
      · exact h.2
  · -- OR of two non-Public operands is union
    intro hp hq
    rw [mem_qar_composed_or]
    constructor
    · intro h
      rcases h.2 with ⟨s, hs, _, hr⟩
      rcases List.mem_pair.mp hs with rfl | rfl
      · exact Or.inl hr
      · exact Or.inr hr
    · intro h
      rcases h with h | h
      · exact ⟨hsub p h, p, by simp, hp, h⟩
      · exact ⟨hsub q h, q, by simp, hq, h⟩
  · -- Public is skipped from an OR: (Public | q) is exactly q
    intro hq
    rw [mem_qar_composed_or]
    constructor
    · intro h
      rcases h.2 with ⟨s, hs, hnp, hr⟩
      rcases List.mem_pair.mp hs with rfl | rfl
      · simp [isPublicPol] at hnp
      · exact hr
    · intro h
      exact ⟨hsub q h, q, by simp, hq, h⟩

/-- C2, amended, witness: at a concrete registry, principal, and pair of
non-`Public` policies, the OR-composition is the union (row `1` is
accessible via the admin side of `Restricted`), the AND-composition is the
intersection, and `(Public | Restricted)` equals `Restricted`'s set. -/
theorem claimC2_amended_witness :
    (1 ∈ query_accessible_rows regPair ⟨true, 0⟩ 2
        (AccessPolicy.composedAcc
          [AccessPolicy.restrictedAcc, AccessPolicy.restrictedAcc] false) "e" ↔
      1 ∈ query_accessible_rows regPair ⟨true, 0⟩ 1 AccessPolicy.restrictedAcc "e" ∨
      1 ∈ query_accessible_rows regPair ⟨true, 0⟩ 1 AccessPolicy.restrictedAcc "e") := by
  exact ((claimC2_amended regPair ⟨true, 0⟩ 0 "e"
    AccessPolicy.restrictedAcc AccessPolicy.restrictedAcc 1).2.1 (by decide) (by decide))

/-! ## Claim C3 — admin bypass -/

/-- C3: the code does not honour the admin bypass for
`AccessibleIfRelatedRowsAreAccessible`.  `query_accessible_rows` of that
variant has no `is_admin` check and INNER-joins the relationship, so an
admin principal is denied `read` access to a row that has no related row
through the referenced relationship — although the class's own docstring
says it "automatically grants access to Users with the 'System admin' ACL".
Evaluated at the failing input: the principal is an admin, row `1` of
`assocs` has no `owner`-related rows, and `is_accessible_by` returns
`false`. -/
theorem claimC3_code_bug :
    (Principal.mk true 7).is_admin = true ∧
    regNoRelated.relatedIds "assocs" "owner" 1 = [] ∧
    is_accessible_by regNoRelated ⟨true, 7⟩ 3 "assocs" 1 "read" = false := by
  decide

/-! ## Lemmas about bulk verification and the verified session -/

/-- A filtered list is empty exactly when no element satisfies the
predicate. -/
theorem filter_isEmpty_eq_not_any {α : Type} (l : List α) (p : α → Bool) :
    (l.filter p).isEmpty = !(l.any p) := by
  induction l with
  | nil => rfl
  | cons x xs ih =>
    by_cases h : p x = true
    · simp [List.filter_cons, h]
    · simp only [List.filter_cons, h, if_neg, Bool.false_eq_true, ite_false,
        List.any_cons]
      simp [h, ih]

/-- Every row's class appears among the grouping keys of its collection. -/
theorem cls_mem_classKeys (row : TrackedRow) :
    ∀ coll : List TrackedRow, row ∈ coll → row.cls ∈ classKeys coll := by
  intro coll
  induction coll with
  | nil => intro h; simp at h
  | cons x xs ih =>
    intro h
    rcases List.mem_cons.mp h with rfl | h
    · simp only [classKeys]
      split
      · next hc => simpa using hc
      · exact List.mem_cons_self _ _
    · simp only [classKeys]
      split
      · exact ih h
      · exact List.mem_cons_of_mem _ (ih h)

/-- Some grouping key has an inaccessible row exactly when some row of the
collection is inaccessible. -/
theorem classKeys_any_leak (acc : String → TrackedRow → Bool) (mode : String)
    (coll : List TrackedRow) :
    (classKeys coll).any (fun k => coll.any (fun row => row.cls == k && !(acc mode row)))
      = coll.any (fun row => !(acc mode row)) := by
  cases h : coll.any (fun row => !(acc mode row)) with
  | true =>
    rcases List.any_eq_true.mp h with ⟨row, hrow, hna⟩
    exact List.any_eq_true.mpr ⟨row.cls, cls_mem_classKeys row coll hrow,
      List.any_eq_true.mpr ⟨row, hrow, by simp [hna]⟩⟩
  | false =>
    rw [List.any_eq_false] at h
    rw [List.any_eq_false]
    intro k _
    rw [Bool.not_eq_true, List.any_eq_false]
    intro row hrow
    have hx := h row hrow
    simp at hx
    simp [hx]

/-- The per-class verification loop raises exactly when the configuration is
strict and some key has an inaccessible row. -/
theorem verifyClasses_raised (c : SecurityCfg) (acc : String → TrackedRow → Bool)
    (mode : String) (coll : List TrackedRow) :
    ∀ keys : List String, (verifyClasses c acc mode coll keys).2 =
      (c.strict && keys.any (fun k => coll.any (fun row => row.cls == k && !(acc mode row)))) := by
  intro keys
  induction keys with
  | nil => simp [verifyClasses]
  | cons k rest ih =>
    simp only [verifyClasses, filter_isEmpty_eq_not_any]
    by_cases h : coll.any (fun row => row.cls == k && !(acc mode row)) = true
    · simp only [h, Bool.not_true, Bool.false_eq_true, ite_false, handle_inaccessible]
      cases hst : c.strict with
      | true => simp [h, hst]
      | false => simp [ih, h, hst]
    · simp only [Bool.not_eq_true] at h
      simp [h, ih]

/-- With `security.strict` off, the per-class loop never raises and emits
exactly one effect per leaking key: a webhook post when the webhook is
enabled, a warning otherwise. -/
theorem verifyClasses_nonstrict (c : SecurityCfg) (acc : String → TrackedRow → Bool)
    (mode : String) (coll : List TrackedRow) (hs : c.strict = false) :
    ∀ keys : List String, verifyClasses c acc mode coll keys =
      (List.replicate
        ((keys.filter (fun k => coll.any (fun row => row.cls == k && !(acc mode row)))).length)
        (if c.use_webhook then LeakEffect.webhookPost else LeakEffect.warning), false) := by
  intro keys
  induction keys with
  | nil => simp [verifyClasses]
  | cons k rest ih =>
    simp only [verifyClasses, filter_isEmpty_eq_not_any]
    by_cases h : coll.any (fun row => row.cls == k && !(acc mode row)) = true
    · simp [h, handle_inaccessible, hs, ih, List.filter_cons, List.replicate_succ]
    · simp only [Bool.not_eq_true] at h
      simp [h, ih, List.filter_cons]

/-- `bulk_verify` raises exactly when strict mode is on and some row of the
collection is inaccessible. -/
theorem bulk_verify_raised (c : SecurityCfg) (acc : String → TrackedRow → Bool)
    (mode : String) (coll : List TrackedRow) :
    (bulk_verify c acc mode coll).2 =
      (c.strict && coll.any (fun row => !(acc mode row))) := by
  rw [bulk_verify, verifyClasses_raised, classKeys_any_leak]

/-- `bulk_verify` with `security.strict` off: no raise, one effect per
leaking class group. -/
theorem bulk_verify_nonstrict (c : SecurityCfg) (acc : String → TrackedRow → Bool)
    (mode : String) (coll : List TrackedRow) (hs : c.strict = false) :
    bulk_verify c acc mode coll =
      (List.replicate (leakGroups acc mode coll)
        (if c.use_webhook then LeakEffect.webhookPost else LeakEffect.warning), false) := by
  rw [bulk_verify, verifyClasses_nonstrict c acc mode coll hs, leakGroups]

/-- A bucket has a positive leaking-group count exactly when it holds an
inaccessible row. -/
theorem leakGroups_pos_iff (acc : String → TrackedRow → Bool) (mode : String)
    (coll : List TrackedRow) :
    0 < leakGroups acc mode coll ↔ coll.any (fun row => !(acc mode row)) = true := by
  rw [leakGroups, List.length_pos]
  constructor
  · intro h
    rcases List.exists_mem_of_ne_nil _ h with ⟨k, hk⟩
    have := (List.mem_filter.mp hk).2
    rcases List.any_eq_true.mp this with ⟨row, hrow, hp⟩
    have := Bool.and_elim_right hp
    exact List.any_eq_true.mpr ⟨row, hrow, this⟩
  · intro h
    rcases List.any_eq_true.mp h with ⟨row, hrow, hna⟩
    intro hnil
    have hmem : row.cls ∈ (classKeys coll).filter
        (fun k => coll.any (fun r => r.cls == k && !(acc mode r))) :=
      List.mem_filter.mpr ⟨cls_mem_classKeys row coll hrow,
        List.any_eq_true.mpr ⟨row, hrow, by simp [hna]⟩⟩
    rw [hnil] at hmem
    simp at hmem

/-- The overall commit raises exactly when one of the four buckets'
verification raises. -/
theorem verified_commit_raised_eq (c : SecurityCfg) (acc : String → TrackedRow → Bool)
    (s : SessionBuckets) :
    (verified_commit c acc s).raised =
      ((bulk_verify c acc "read" s.read_rows).2 ||
        (bulk_verify c acc "update" s.updated_rows).2 ||
        (bulk_verify c acc "delete" s.deleted_rows).2 ||
        (bulk_verify c acc "create" s.new_rows).2) := by
  cases h1 : (bulk_verify c acc "read" s.read_rows).2 <;>
    cases h2 : (bulk_verify c acc "update" s.updated_rows).2 <;>
      cases h3 : (bulk_verify c acc "delete" s.deleted_rows).2 <;>
        cases h4 : (bulk_verify c acc "create" s.new_rows).2 <;>
          simp [verified_commit, h1, h2, h3, h4]

/-- The transaction-commit step appears in the trace exactly when no bucket
verification raised. -/
theorem verified_commit_commitTx_iff (c : SecurityCfg) (acc : String → TrackedRow → Bool)
    (s : SessionBuckets) :
    SessionEvent.commitTxEv ∈ (verified_commit c acc s).events ↔
      (verified_commit c acc s).raised = false := by
  cases h1 : (bulk_verify c acc "read" s.read_rows).2 <;>
    cases h2 : (bulk_verify c acc "update" s.updated_rows).2 <;>
      cases h3 : (bulk_verify c acc "delete" s.deleted_rows).2 <;>
        cases h4 : (bulk_verify c acc "create" s.new_rows).2 <;>
          simp [verified_commit, h1, h2, h3, h4]

/-! ## Claim C4 — commit protocol order -/

/-- C4: `commit()` on a verified session bulk-verifies the `read`, `update`
and `delete` buckets before the flush, flushes, then bulk-verifies the
`create` bucket, and commits the underlying transaction exactly when no
bucket verification raised: when nothing raises the trace is precisely
verify-read, verify-update, verify-delete, flush, verify-create, commit;
whenever the flush appears it is preceded by exactly the three pre-flush
verifications; and the commit step happens iff no error was raised. -/
theorem claimC4 (c : SecurityCfg) (acc : String → TrackedRow → Bool)
    (s : SessionBuckets) :
    ((verified_commit c acc s).raised = false →
      (verified_commit c acc s).events =
        [SessionEvent.bulkVerifyEv "read", SessionEvent.bulkVerifyEv "update",
         SessionEvent.bulkVerifyEv "delete", SessionEvent.flushEv,
         SessionEvent.bulkVerifyEv "create", SessionEvent.commitTxEv]) ∧
    (SessionEvent.commitTxEv ∈ (verified_commit c acc s).events ↔
      (verified_commit c acc s).raised = false) ∧
    (SessionEvent.flushEv ∈ (verified_commit c acc s).events →
      (verified_commit c acc s).events.take 4 =
        [SessionEvent.bulkVerifyEv "read", SessionEvent.bulkVerifyEv "update",
         SessionEvent.bulkVerifyEv "delete", SessionEvent.flushEv]) := by
  refine ⟨?_, verified_commit_commitTx_iff c acc s, ?_⟩ <;>
    cases h1 : (bulk_verify c acc "read" s.read_rows).2 <;>
      cases h2 : (bulk_verify c acc "update" s.updated_rows).2 <;>
        cases h3 : (bulk_verify c acc "delete" s.deleted_rows).2 <;>
          cases h4 : (bulk_verify c acc "create" s.new_rows).2 <;>
            simp [verified_commit, h1, h2, h3, h4]

/-- C4, witness: with an all-accessible session the commit trace is the full
six-step sequence. -/
theorem claimC4_witness :
    (verified_commit ⟨true, false⟩ (fun _ _ => true)
        ⟨[⟨"a", 1⟩], [], [], [⟨"b", 2⟩]⟩).events =
      [SessionEvent.bulkVerifyEv "read", SessionEvent.bulkVerifyEv "update",
       SessionEvent.bulkVerifyEv "delete", SessionEvent.flushEv,
       SessionEvent.bulkVerifyEv "create", SessionEvent.commitTxEv] :=
  (claimC4 ⟨true, false⟩ (fun _ _ => true) ⟨[⟨"a", 1⟩], [], [], [⟨"b", 2⟩]⟩).1 (by decide)

/-! ## Claim C1 — leak policy -/

/-- C1, counterexample.  With `security.strict = false`, webhook disabled,
and a session whose single read row is inaccessible, the verifier emits one
warning and raises nothing — but the trace ends with the transaction-commit
step: `verify()` returns normally and `super().commit()` commits the
pending changes, so the session does NOT roll back and the changes ARE
persisted, contrary to the claim. -/
theorem claimC1_counterexample :
    denyAll "read" { cls := "widgets", rid := 5 } = false ∧
    verified_commit ⟨false, false⟩ denyAll leakSession =
      { events := [SessionEvent.bulkVerifyEv "read", SessionEvent.bulkVerifyEv "update",
          SessionEvent.bulkVerifyEv "delete", SessionEvent.flushEv,
          SessionEvent.bulkVerifyEv "create", SessionEvent.commitTxEv],
        effects := [LeakEffect.warning], raised := false } ∧
    SessionEvent.commitTxEv ∈ (verified_commit ⟨false, false⟩ denyAll leakSession).events := by
  decide

set_option maxRecDepth 4000

/-- C1, amended.  When commit-time bulk verification finds an inaccessible
row: with `security.strict = false` the verifier emits one warning (or one
webhook post) per leaking group, raises no exception, and `commit()` then
proceeds — the transaction IS committed and the pending changes persist
(there is no rollback); with `security.strict = true` an `AccessError` is
raised and the transaction-commit step never happens. -/
theorem claimC1_amended (c : SecurityCfg) (acc : String → TrackedRow → Bool)
    (s : SessionBuckets) (hleak : 0 < leakGroupCount acc s) :
    (c.strict = false →
      (verified_commit c acc s).raised = false ∧
      SessionEvent.commitTxEv ∈ (verified_commit c acc s).events ∧
      (verified_commit c acc s).effects =
        List.replicate (leakGroupCount acc s)
          (if c.use_webhook then LeakEffect.webhookPost else LeakEffect.warning) ∧
      (verified_commit c acc s).effects ≠ []) ∧
    (c.strict = true →
      (verified_commit c acc s).raised = true ∧
      SessionEvent.commitTxEv ∉ (verified_commit c acc s).events) := by
  constructor
  · intro hs
    have e1 := bulk_verify_nonstrict c acc "read" s.read_rows hs
    have e2 := bulk_verify_nonstrict c acc "update" s.updated_rows hs
    have e3 := bulk_verify_nonstrict c acc "delete" s.deleted_rows hs
    have e4 := bulk_verify_nonstrict c acc "create" s.new_rows hs
    have f1 : (bulk_verify c acc "read" s.read_rows).2 = false := by rw [e1]
    have f2 : (bulk_verify c acc "update" s.updated_rows).2 = false := by rw [e2]
    have f3 : (bulk_verify c acc "delete" s.deleted_rows).2 = false := by rw [e3]
    have f4 : (bulk_verify c acc "create" s.new_rows).2 = false := by rw [e4]
    have heff : (verified_commit c acc s).effects =
        List.replicate (leakGroupCount acc s)
          (if c.use_webhook then LeakEffect.webhookPost else LeakEffect.warning) := by
      simp only [verified_commit, f1, f2, f3, f4, Bool.false_eq_true, if_false, e1, e2, e3, e4]
      rw [leakGroupCount, List.replicate_add, List.replicate_add, List.replicate_add]
    refine ⟨?_, ?_, heff, ?_⟩
    · simp [verified_commit, f1, f2, f3, f4]
    · simp [verified_commit, f1, f2, f3, f4]
    · rw [heff]
      simp only [ne_eq, List.replicate_eq_nil_iff]
      omega
  · intro hs
    have hr : (verified_commit c acc s).raised = true := by
      rw [verified_commit_raised_eq]
      simp only [bulk_verify_raised, hs, Bool.true_and]
      rw [leakGroupCount] at hleak
      have : 0 < leakGroups acc "read" s.read_rows ∨
          0 < leakGroups acc "update" s.updated_rows ∨
          0 < leakGroups acc "delete" s.deleted_rows ∨
          0 < leakGroups acc "create" s.new_rows := by omega
      rcases this with h | h | h | h <;>
        simp [(leakGroups_pos_iff _ _ _).mp h]
    refine ⟨hr, ?_⟩
    rw [verified_commit_commitTx_iff, hr]
    simp

/-- C1, amended, witness: at the concrete leaking session with strict mode
off, no exception is raised, the transaction commits, and exactly the
leak-group count of warnings is emitted. -/
theorem claimC1_amended_witness :
    (verified_commit ⟨false, false⟩ denyAll leakSession).raised = false ∧
    SessionEvent.commitTxEv ∈ (verified_commit ⟨false, false⟩ denyAll leakSession).events ∧
    (verified_commit ⟨false, false⟩ denyAll leakSession).effects =
      List.replicate (leakGroupCount denyAll leakSession)
        (if (SecurityCfg.mk false false).use_webhook then LeakEffect.webhookPost
         else LeakEffect.warning) ∧
    (verified_commit ⟨false, false⟩ denyAll leakSession).effects ≠ [] :=
  (claimC1_amended ⟨false, false⟩ denyAll leakSession (by decide)).1 rfl

/-! ## Claim C8 — empty relationship chain -/

/-- C8: constructing `AccessibleIfUserMatches("")` does NOT raise.  Python's
`"".split(".")` is `[""]`, whose length is `1`, so the setter's
`len(relationship_names) < 1` guard never fires: the setter succeeds on the
empty string (first conjunct) and indeed on every input (second conjunct).
The invalid empty chain only surfaces later, when `query_accessible_rows`
fails to find the empty-named relationship on the mapped class. -/
theorem claimC8_code_bug :
    relationship_chain_setter [] = Except.ok [[]] ∧
    ∀ value : List Char, ∃ names, relationship_chain_setter value = Except.ok names := by
  constructor
  · rfl
  · intro value
    refine ⟨pySplitDot value, ?_⟩
    unfold relationship_chain_setter
    have h : ¬ (pySplitDot value).length < 1 := by
      simp only [Nat.lt_one_iff, List.length_eq_zero]
      exact pySplitDot_ne_nil value
    rw [if_neg h]

/-! ## Claim C5 — migration-gate backoff -/

/-- C5: the backoff sequence is wrong.  `timeout = max(timeout * 2, 30)`
makes 30 a floor, not a cap: after three falsy responses followed by a
truthy one the process sleeps 1s, 30s, 60s — the second sleep is 30s
instead of the claimed 2s, and the third already exceeds the claimed 30s
cap, growing without bound thereafter.  The loop-until-migrated shape
itself is as claimed: with no truthy response the port is never bound. -/
theorem claimC5_code_bug :
    migration_sleeps [false, false, false, true] 1 = some [1, 30, 60] ∧
    next_timeout 1 = 30 ∧
    30 < next_timeout (next_timeout 1) ∧
    migration_sleeps [false, false, false] 1 = none := by
  decide

/-! ## Claim C6 — socket auth token claims -/

/-- C6: the token issued by `GET /socket_auth_token` is never accepted by
the websocket server.  The handler stores the requesting user's id under
the claim key `"username"` (first conjunct) with the claimed 15-minute
`exp` (second conjunct), but it sets no `"user_id"` claim (third
conjunct); `WebSocket.authenticate` reads `payload.get("user_id")` and
treats its absence as a `DecodeError`, so authentication fails at every
time `t` — inside or outside the validity window (fourth conjunct). -/
theorem claimC6_code_bug (user_id now t : Nat) :
    lookupClaim "username" (socket_auth_token_payload user_id now).1 =
      some (toString user_id) ∧
    (socket_auth_token_payload user_id now).2 = now + 15 * 60 ∧
    lookupClaim "user_id" (socket_auth_token_payload user_id now).1 = none ∧
    ws_authenticate_user_id (socket_auth_token_payload user_id now).1
      (socket_auth_token_payload user_id now).2 t = none := by
  refine ⟨by simp [lookupClaim, socket_auth_token_payload], rfl,
    by simp [lookupClaim, socket_auth_token_payload], ?_⟩
  by_cases h : (socket_auth_token_payload user_id now).2 ≤ t
  · simp [ws_authenticate_user_id, h]
  · simp [ws_authenticate_user_id, h, lookupClaim, socket_auth_token_payload]

/-! ## Claim C7 — AccessError status code -/

/-- C7: an `AccessError` propagating out of a request handler yields an
HTTP response with status 400, not 401.  `AccessError.__init__` hardcodes
status 400 (ignoring its own `status_code` parameter), and `write_error`
tests `isinstance(err_cls, AccessError)` on the exception *class*, which is
never an instance of `AccessError` (last two conjuncts pin the failure on
that check: the corresponding instance object would have matched). -/
theorem claimC7_code_bug (reason : String) (requested_status : Nat) :
    response_status_for_access_error reason requested_status = 400 ∧
    response_status_for_access_error reason requested_status ≠ 401 ∧
    py_isinstance (PyVal.classObj "AccessError") "AccessError" = false ∧
    py_isinstance (PyVal.instObj "AccessError") "AccessError" = true := by
  refine ⟨rfl, ?_, rfl, by decide⟩
  intro h
  simp [response_status_for_access_error, write_error, py_isinstance,
    access_error_init] at h

/-! ## Lemmas about the websocket socket sets -/

/-- Adding a socket puts it in the key's set. -/
theorem mem_getSet_addSock (m : SocketSets) (k : String) (sid : Nat) :
    sid ∈ getSet (addSock m k sid) k := by
  induction m with
  | nil => simp [addSock, getSet]
  | cons e rest ih =>
    by_cases h : e.fst == k
    · simp only [addSock, h, if_pos, getSet]
      by_cases hc : sid ∈ e.snd
      · simp [hc]
      · simp [hc]
    · simp [addSock, h, getSet, ih]

/-- Adding a socket under one key leaves every other key's set unchanged. -/
theorem getSet_addSock_ne (m : SocketSets) (k k' : String) (sid : Nat)
    (h : k' ≠ k) : getSet (addSock m k sid) k' = getSet m k' := by
  induction m with
  | nil =>
    simp only [addSock, getSet]
    have : ("" : String) ≠ k' ∨ True := Or.inr trivial
    simp [show (k == k') = false from beq_eq_false_iff_ne.mpr (fun hk => h hk.symm)]
  | cons e rest ih =>
    by_cases he : e.fst == k
    · have : (e.fst == k') = false := by
        have : e.fst = k := by simpa using he
        subst this
        exact beq_eq_false_iff_ne.mpr (fun hk => h hk.symm)
      simp [addSock, he, getSet, this]
    · by_cases he' : e.fst == k'
      · simp [addSock, he, getSet, he']
      · simp [addSock, he, getSet, he', ih]

/-- Removing a socket empties it from the key's set. -/
theorem not_mem_getSet_removeSock (m : SocketSets) (k : String) (sid : Nat) :
    sid ∉ getSet (removeSock m k sid) k := by
  induction m with
  | nil => simp [removeSock, getSet]
  | cons e rest ih =>
    by_cases h : e.fst == k
    · simp [removeSock, h, getSet, List.mem_filter]
    · simp [removeSock, h, getSet, ih]

/-- Removing a socket under one key leaves every other key's set
unchanged. -/
theorem getSet_removeSock_ne (m : SocketSets) (k k' : String) (sid : Nat)
    (h : k' ≠ k) : getSet (removeSock m k sid) k' = getSet m k' := by
  induction m with
  | nil => simp [removeSock, getSet]
  | cons e rest ih =>
    by_cases he : e.fst == k
    · have : (e.fst == k') = false := by
        have : e.fst = k := by simpa using he
        subst this
        exact beq_eq_false_iff_ne.mpr (fun hk => h hk.symm)
      simp [removeSock, he, getSet, this]
    · by_cases he' : e.fst == k'
      · simp [removeSock, he, getSet, he']
      · simp [removeSock, he, getSet, he', ih]

/-- `on_close` shrinks exactly the recorded user's set, in both the
unsubscribe and the keep branch. -/
theorem on_close_sockets (sid : Nat) (st : WSState) (uid : String)
    (h : st.conn.user_id = some uid) :
    (on_close sid st).sockets = removeSock st.sockets uid sid := by
  simp only [on_close, h]
  split <;> rfl

/-- A successful authentication leaves the connection authenticated as the
token's user with a zeroed failure counter (and sends no further
`AUTH REQUEST`). -/
theorem on_message_valid_conn (sid : Nat) (s : WSState) (u : String)
    (hu : decode_user_id (AuthTok.valid u) = some u) :
    (on_message sid s (AuthTok.valid u)).conn =
      { authenticated := true, auth_failures := 0, user_id := some u } := by
  simp [on_message, authenticate, hu]

/-- A successful authentication adds the socket to the token's user's set
and touches no other set. -/
theorem on_message_valid_sockets (sid : Nat) (s : WSState) (u : String)
    (hu : decode_user_id (AuthTok.valid u) = some u) :
    (on_message sid s (AuthTok.valid u)).sockets = addSock s.sockets u sid := by
  simp [on_message, authenticate, hu]

/-! ## Claim C9 — auth failure cap -/

/-- C9, counterexample.  A connection is opened and then fails three
authentication attempts in a row.  Before the third failed attempt the
connection's failure counter already equals the cap (`auth_failures = 3`,
not below it), yet processing that attempt still emits `AUTH FAILED`
followed by another `AUTH REQUEST` (the trailing element of the output
trace): the guard is `auth_failures <= max_auth_fails`, so reaching the cap
does not stop the requests. -/
theorem claimC9_counterexample :
    (on_message 0 (on_message 0 (ws_open ⟨initConn, [], []⟩) AuthTok.badTok)
        AuthTok.badTok).conn.auth_failures = 3 ∧
    (on_message 0 (on_message 0 (on_message 0 (ws_open ⟨initConn, [], []⟩)
        AuthTok.badTok) AuthTok.badTok) AuthTok.badTok).out =
      [WsOut.authRequest, WsOut.authFailed, WsOut.authRequest, WsOut.authFailed,
       WsOut.authRequest, WsOut.authFailed, WsOut.authRequest] := by
  decide

/-- C9, amended.  On every failed authentication attempt the server sends
`AUTH FAILED` and then re-issues `AUTH REQUEST` iff the connection is still
unauthenticated and its failure counter is at most the cap of 3 — `<=`, not
strictly below; the counter counts `AUTH REQUEST`s already sent on the
connection (including the one at open) and is reset only by a successful
authentication.  In particular the requests stop only once the counter
exceeds 3. -/
theorem claimC9_amended (sid : Nat) (st : WSState) (tok : AuthTok)
    (hbad : decode_user_id tok = none) :
    (on_message sid st tok).out =
      st.out ++ [WsOut.authFailed] ++
        (if st.conn.authenticated = false ∧ st.conn.auth_failures ≤ maxAuthFails
         then [WsOut.authRequest] else []) := by
  simp only [on_message, authenticate, hbad]
  by_cases ha : st.conn.authenticated
  · simp [ha]
  · by_cases hf : st.conn.auth_failures ≤ maxAuthFails
    · simp [ha, hf, request_auth]
    · simp [ha, hf]

/-- C9, amended, witness: the first failed attempt after open (counter 1)
gets `AUTH FAILED` then `AUTH REQUEST`. -/
theorem claimC9_amended_witness :
    (on_message 0 (ws_open ⟨initConn, [], []⟩) AuthTok.badTok).out =
      (ws_open ⟨initConn, [], []⟩).out ++ [WsOut.authFailed] ++
        (if (ws_open ⟨initConn, [], []⟩).conn.authenticated = false ∧
            (ws_open ⟨initConn, [], []⟩).conn.auth_failures ≤ maxAuthFails
         then [WsOut.authRequest] else []) :=
  claimC9_amended 0 (ws_open ⟨initConn, [], []⟩) AuthTok.badTok rfl

/-! ## Claim C10 — stale socket sets on re-authentication -/

/-- C10: a socket that authenticated as user `a` and then successfully
re-authenticates as a different user `b` records `b` as its user and is
added to `b`'s set, but is never removed from `a`'s set; a broadcast routed
to `a` is therefore still delivered to this socket; and on close the socket
is removed only from the set of its most recently recorded user `b`,
remaining in `a`'s set. -/
theorem claimC10 (sid : Nat) (a b : String) (st : WSState)
    (hab : a ≠ b) (ha : a ≠ "") (hb : b ≠ "") (hstar : a ≠ "*") :
    (on_message sid (on_message sid st (AuthTok.valid a))
        (AuthTok.valid b)).conn.user_id = some b ∧
    sid ∈ getSet (on_message sid (on_message sid st (AuthTok.valid a))
        (AuthTok.valid b)).sockets b ∧
    sid ∈ getSet (on_message sid (on_message sid st (AuthTok.valid a))
        (AuthTok.valid b)).sockets a ∧
    sid ∈ broadcast_targets (on_message sid (on_message sid st (AuthTok.valid a))
        (AuthTok.valid b)).sockets a ∧
    sid ∉ getSet (on_close sid (on_message sid (on_message sid st (AuthTok.valid a))
        (AuthTok.valid b))).sockets b ∧
    sid ∈ getSet (on_close sid (on_message sid (on_message sid st (AuthTok.valid a))
        (AuthTok.valid b))).sockets a := by
  have hdeca : decode_user_id (AuthTok.valid a) = some a := by
    simp [decode_user_id, beq_eq_false_iff_ne.mpr ha]
  have hdecb : decode_user_id (AuthTok.valid b) = some b := by
    simp [decode_user_id, beq_eq_false_iff_ne.mpr hb]
  have huid : (on_message sid (on_message sid st (AuthTok.valid a))
      (AuthTok.valid b)).conn.user_id = some b := by
    rw [on_message_valid_conn sid _ b hdecb]
  have hsock : (on_message sid (on_message sid st (AuthTok.valid a))
      (AuthTok.valid b)).sockets = addSock (addSock st.sockets a sid) b sid := by
    rw [on_message_valid_sockets sid _ b hdecb, on_message_valid_sockets sid st a hdeca]
  have hclose : (on_close sid (on_message sid (on_message sid st (AuthTok.valid a))
      (AuthTok.valid b))).sockets =
      removeSock (addSock (addSock st.sockets a sid) b sid) b sid := by
    rw [on_close_sockets sid _ b huid, hsock]
  refine ⟨huid, ?_, ?_, ?_, ?_, ?_⟩
  · rw [hsock]
    exact mem_getSet_addSock _ b sid
  · rw [hsock, getSet_addSock_ne _ b a sid hab]
    exact mem_getSet_addSock _ a sid
  · simp only [broadcast_targets, beq_eq_false_iff_ne.mpr hstar, Bool.false_eq_true,
      if_false]
    rw [hsock, getSet_addSock_ne _ b a sid hab]
    exact mem_getSet_addSock _ a sid
  · rw [hclose]
    exact not_mem_getSet_removeSock _ b sid
  · rw [hclose, getSet_removeSock_ne _ b a sid hab, getSet_addSock_ne _ b a sid hab]
    exact mem_getSet_addSock _ a sid

/-- C10, witness: concrete run — socket `0` authenticates as `"1"`, then as
`"2"`, over an initially empty socket map. -/
theorem claimC10_witness :
    (on_message 0 (on_message 0 ⟨initConn, [], []⟩ (AuthTok.valid "1"))
        (AuthTok.valid "2")).conn.user_id = some "2" ∧
    0 ∈ getSet (on_message 0 (on_message 0 ⟨initConn, [], []⟩ (AuthTok.valid "1"))
        (AuthTok.valid "2")).sockets "2" ∧
    0 ∈ getSet (on_message 0 (on_message 0 ⟨initConn, [], []⟩ (AuthTok.valid "1"))
        (AuthTok.valid "2")).sockets "1" ∧
    0 ∈ broadcast_targets (on_message 0 (on_message 0 ⟨initConn, [], []⟩
        (AuthTok.valid "1")) (AuthTok.valid "2")).sockets "1" ∧
    0 ∉ getSet (on_close 0 (on_message 0 (on_message 0 ⟨initConn, [], []⟩
        (AuthTok.valid "1")) (AuthTok.valid "2"))).sockets "2" ∧
    0 ∈ getSet (on_close 0 (on_message 0 (on_message 0 ⟨initConn, [], []⟩
        (AuthTok.valid "1")) (AuthTok.valid "2"))).sockets "1" :=
  claimC10 0 "1" "2" ⟨initConn, [], []⟩ (by decide) (by decide) (by decide) (by decide)

end Baselayer
